import Mathlib

/-!
Shallow embedding of the Stellar custody multi-sig contract
(src/contracts/custody/src/lib.rs).

Modelling conventions:
- soroban `Address` and `Symbol` values are opaque identities compared only
  for equality; both are modelled as `Nat`.
- `i128` amounts are modelled as `Int`, `u64` timestamps/ids and `u32`
  counters as `Nat` (the contract performs no wrapping arithmetic on the
  paths modelled here).
- The contract's keyed instance storage becomes explicit fields of
  `ContractState`; the keyed families (`WalletInfo(Address)`,
  `Transaction(u64)`, `DailySpent(u64)`, `MonthlySpent(u64)`) and the
  soroban `Map` type become association lists with first-match lookup and
  replace-or-append update.
- A contract call that panics is modelled as `Except.error`; the host
  discards every storage write of a panicking call (all-or-nothing
  commit), which `applyOp` reflects by returning the pre-state on error.
- `require_auth` is the host's capability: the calls modelled here are
  the authenticated ones.
-/

namespace Custody

inductive WalletType
  | Hot
  | Cold
deriving DecidableEq, Repr

inductive TxType
  | Payment
  | Rebalance
  | Withdrawal
  | Emergency
deriving DecidableEq, Repr

inductive TxStatus
  | Pending
  | AwaitingApproval
  | Approved
  | Executed
  | Failed
  | Cancelled
deriving DecidableEq, Repr

structure Guardian where
  address : Nat
  role : Nat
  is_active : Bool
  daily_limit : Int
  monthly_limit : Int
  approval_count : Nat
  last_approval : Nat
deriving DecidableEq, Repr

structure Transaction where
  id : Nat
  from_wallet : Nat
  to_address : Nat
  amount : Int
  memo : Nat
  tx_type : TxType
  status : TxStatus
  approvals : List Nat
  created_at : Nat
  executed_at : Option Nat
  requires_approval : Bool
deriving DecidableEq, Repr

structure WalletInfo where
  address : Nat
  wallet_type : WalletType
  balance : Int
  reserved_balance : Int
  is_active : Bool
deriving DecidableEq, Repr

structure SystemLimits where
  daily_limit : Int
  monthly_limit : Int
  high_value_threshold : Int
  required_approvals : Nat
  cold_wallet_percentage : Nat
  hot_wallet_percentage : Nat
deriving DecidableEq, Repr

/-- Panic outcomes of the contract calls, named after the panic sites in
the source (`InvalidConfiguration` covers both the guardian-count and the
percentage-sum checks; `MissingData` is an `unwrap()` on absent storage,
unreachable in reachable states). -/
inductive CustodyError
  | AlreadyInited
  | InvalidConfiguration
  | NotInited
  | EmergencyActive
  | InvalidAmount
  | WalletNotFound
  | InsufficientFunds
  | LimitExceeded
  | NotAGuardian
  | GuardianInactive
  | TransactionNotFound
  | DuplicateApproval
  | InvalidTransactionState
  | MissingData
deriving DecidableEq, Repr

/-- Keyed storage / soroban `Map` lookup: first entry with the key. -/
def storeGet {α : Type} : List (Nat × α) → Nat → Option α
  | [], _ => none
  | p :: rest, k => if p.1 = k then some p.2 else storeGet rest k

/-- Keyed storage / soroban `Map` update: replace the first entry with the
key, else append. -/
def storeSet {α : Type} : List (Nat × α) → Nat → α → List (Nat × α)
  | [], k, v => [(k, v)]
  | p :: rest, k, v => if p.1 = k then (k, v) :: rest else p :: storeSet rest k v

/-- The contract's instance storage, one field per `DataKey`. `inited`
models the presence of the `Initialized` flag. -/
structure ContractState where
  inited : Bool
  system_limits : Option SystemLimits
  transaction_counter : Option Nat
  guardians : Option (List (Nat × Guardian))
  guardian_count : Option Nat
  hot_wallet : Option Nat
  cold_wallet : Option Nat
  wallets : List (Nat × WalletInfo)
  transactions : List (Nat × Transaction)
  daily_spent : List (Nat × Int)
  monthly_spent : List (Nat × Int)
  emergency_mode : Option Bool
  emergency_initiator : Option Nat
deriving DecidableEq, Repr

/-- Storage of a freshly deployed contract instance: every key absent. -/
def emptyState : ContractState :=
  { inited := false
    system_limits := none
    transaction_counter := none
    guardians := none
    guardian_count := none
    hot_wallet := none
    cold_wallet := none
    wallets := []
    transactions := []
    daily_spent := []
    monthly_spent := []
    emergency_mode := none
    emergency_initiator := none }

/-- `is_emergency_mode`: `EmergencyMode` read with `unwrap_or(false)`.
Also the condition tested by the source's `check_emergency_mode`. -/
def is_emergency_mode (s : ContractState) : Bool :=
  s.emergency_mode.getD false

/-- `get_transaction` query. -/
def get_transaction (s : ContractState) (tx_id : Nat) : Option Transaction :=
  storeGet s.transactions tx_id

/-- `get_guardian` query. -/
def get_guardian (s : ContractState) (guardian_address : Nat) : Option Guardian :=
  s.guardians.bind (fun gmap => storeGet gmap guardian_address)

/-- `get_wallet_balance` query. -/
def get_wallet_balance (s : ContractState) (wallet_address : Nat) : Option Int :=
  (storeGet s.wallets wallet_address).map (fun w => w.balance)

/-- `get_system_limits` query (the source unwraps; we return the stored
option). -/
def get_system_limits (s : ContractState) : Option SystemLimits :=
  s.system_limits

/-- `get_transaction_counter`: counter read with `unwrap_or(0)`. -/
def get_transaction_counter (s : ContractState) : Nat :=
  s.transaction_counter.getD 0

/-- A wallet record as created at initialization: zero balance, zero
reserved balance, active. -/
def fresh_wallet (a : Nat) (t : WalletType) : WalletInfo :=
  { address := a
    wallet_type := t
    balance := 0
    reserved_balance := 0
    is_active := true }

/-- The storage writes of a successful `initialize`: the guardian vector
registered into a map keyed by address (later duplicates overwrite
earlier ones), configuration stored, and the two wallet records created
with zero balances. -/
def init_state (s : ContractState) (guardians : List Guardian)
    (hot_wallet cold_wallet : Nat) (system_limits : SystemLimits) : ContractState :=
  { s with
    guardians := some (guardians.foldl (fun m g => storeSet m g.address g) [])
    guardian_count := some 3
    hot_wallet := some hot_wallet
    cold_wallet := some cold_wallet
    system_limits := some system_limits
    transaction_counter := some 0
    emergency_mode := some false
    inited := true
    wallets := storeSet
      (storeSet s.wallets hot_wallet (fresh_wallet hot_wallet WalletType.Hot))
      cold_wallet (fresh_wallet cold_wallet WalletType.Cold) }

/-- `initialize` (renamed to satisfy the proof environment). -/
def initContract (s : ContractState) (guardians : List Guardian)
    (hot_wallet cold_wallet : Nat) (system_limits : SystemLimits) :
    Except CustodyError ContractState :=
  if s.inited then Except.error CustodyError.AlreadyInited
  else if guardians.length ≠ 3 then Except.error CustodyError.InvalidConfiguration
  else if system_limits.cold_wallet_percentage + system_limits.hot_wallet_percentage ≠ 100 then
    Except.error CustodyError.InvalidConfiguration
  else
    Except.ok (init_state s guardians hot_wallet cold_wallet system_limits)

/-- `check_spending_limits`: `today = timestamp / 86400`,
`current_month = today / 30`, compare each bucket's accumulated spend plus
the new amount against the system-level caps. -/
def check_spending_limits (s : ContractState) (amount : Int) (now : Nat) :
    Except CustodyError Unit :=
  match s.system_limits with
  | none => Except.error CustodyError.MissingData
  | some system_limits =>
    let today := now / 86400
    let daily_spent := (storeGet s.daily_spent today).getD 0
    if daily_spent + amount > system_limits.daily_limit then
      Except.error CustodyError.LimitExceeded
    else
      let current_month := today / 30
      let monthly_spent := (storeGet s.monthly_spent current_month).getD 0
      if monthly_spent + amount > system_limits.monthly_limit then
        Except.error CustodyError.LimitExceeded
      else Except.ok ()

/-- `update_spending_tracking`: add the executed amount to both the day
bucket and the month bucket. -/
def update_spending_tracking (s : ContractState) (amount : Int) (now : Nat) :
    ContractState :=
  let today := now / 86400
  let current_month := today / 30
  let daily_spent := (storeGet s.daily_spent today).getD 0
  let s1 := { s with daily_spent := storeSet s.daily_spent today (daily_spent + amount) }
  let monthly_spent := (storeGet s1.monthly_spent current_month).getD 0
  { s1 with monthly_spent := storeSet s1.monthly_spent current_month (monthly_spent + amount) }

/-- The post-state of `execute_transaction_internal` once the transaction
and the source wallet have been read: subtract the amount from both
`balance` and `reserved_balance`, mark the transaction `Executed` with
`executed_at = now`, and record the spend. -/
def execute_result (s : ContractState) (tx_id : Nat) (now : Nat)
    (txn : Transaction) (from_wallet : WalletInfo) : ContractState :=
  let from_wallet1 := { from_wallet with
    balance := from_wallet.balance - txn.amount
    reserved_balance := from_wallet.reserved_balance - txn.amount }
  let txn1 := { txn with status := TxStatus.Executed, executed_at := some now }
  let s1 := update_spending_tracking s txn.amount now
  let s2 := { s1 with wallets := storeSet s1.wallets txn.from_wallet from_wallet1 }
  { s2 with transactions := storeSet s2.transactions tx_id txn1 }

/-- `execute_transaction_internal`: re-read the stored transaction and the
source wallet, then settle. -/
def execute_transaction_internal (s : ContractState) (tx_id : Nat) (now : Nat) :
    Except CustodyError ContractState :=
  match storeGet s.transactions tx_id with
  | none => Except.error CustodyError.TransactionNotFound
  | some txn =>
    match storeGet s.wallets txn.from_wallet with
    | none => Except.error CustodyError.WalletNotFound
    | some from_wallet => Except.ok (execute_result s tx_id now txn from_wallet)

/-- `requires_approval = amount > high_value_threshold || wallet is Cold`. -/
def requiresApproval (system_limits : SystemLimits) (amount : Int)
    (wallet_info : WalletInfo) : Bool :=
  decide (amount > system_limits.high_value_threshold) ||
    decide (wallet_info.wallet_type = WalletType.Cold)

/-- The transaction record built by `create_transaction`. -/
def new_transaction (tx_id : Nat) (from_wallet to_address : Nat) (amount : Int)
    (memo : Nat) (tx_type : TxType) (now : Nat) (ra : Bool) : Transaction :=
  { id := tx_id
    from_wallet := from_wallet
    to_address := to_address
    amount := amount
    memo := memo
    tx_type := tx_type
    status := if ra then TxStatus.AwaitingApproval else TxStatus.Pending
    approvals := []
    created_at := now
    executed_at := none
    requires_approval := ra }

/-- The storage writes of `create_transaction`: bump the source wallet's
`reserved_balance` by the amount, store the transaction, advance the
counter. -/
def reserve_and_store (s : ContractState) (from_wallet : Nat)
    (wallet_info : WalletInfo) (amount : Int) (tx_id : Nat)
    (txn : Transaction) : ContractState :=
  let wallet_info1 := { wallet_info with
    reserved_balance := wallet_info.reserved_balance + amount }
  let s1 := { s with wallets := storeSet s.wallets from_wallet wallet_info1 }
  { s1 with
    transactions := storeSet s1.transactions tx_id txn
    transaction_counter := some tx_id }

/-- `create_transaction`. -/
def create_transaction (s : ContractState) (from_wallet to_address : Nat)
    (amount : Int) (memo : Nat) (tx_type : TxType) (now : Nat) :
    Except CustodyError (Nat × ContractState) :=
  if !s.inited then Except.error CustodyError.NotInited
  else if is_emergency_mode s then Except.error CustodyError.EmergencyActive
  else if amount ≤ 0 then Except.error CustodyError.InvalidAmount
  else match storeGet s.wallets from_wallet with
  | none => Except.error CustodyError.WalletNotFound
  | some wallet_info =>
    if wallet_info.balance < amount then Except.error CustodyError.InsufficientFunds
    else match s.system_limits with
    | none => Except.error CustodyError.MissingData
    | some system_limits =>
      match (if requiresApproval system_limits amount wallet_info then
               check_spending_limits s amount now
             else Except.ok ()) with
      | Except.error e => Except.error e
      | Except.ok _ =>
        if !(requiresApproval system_limits amount wallet_info) then
          match execute_transaction_internal
              (reserve_and_store s from_wallet wallet_info amount
                (s.transaction_counter.getD 0 + 1)
                (new_transaction (s.transaction_counter.getD 0 + 1) from_wallet
                  to_address amount memo tx_type now
                  (requiresApproval system_limits amount wallet_info)))
              (s.transaction_counter.getD 0 + 1) now with
          | Except.error e => Except.error e
          | Except.ok s3 => Except.ok (s.transaction_counter.getD 0 + 1, s3)
        else
          Except.ok (s.transaction_counter.getD 0 + 1,
            reserve_and_store s from_wallet wallet_info amount
              (s.transaction_counter.getD 0 + 1)
              (new_transaction (s.transaction_counter.getD 0 + 1) from_wallet
                to_address amount memo tx_type now
                (requiresApproval system_limits amount wallet_info)))

/-- The transaction as mutated locally by `approve_transaction`: append
the guardian, and on quorum set the local status to `Approved`. -/
def approved_txn (txn : Transaction) (guardian : Nat) (quorum : Bool) : Transaction :=
  let txn1 := { txn with approvals := txn.approvals ++ [guardian] }
  if quorum then { txn1 with status := TxStatus.Approved } else txn1

/-- The final storage writes of `approve_transaction`: store the local
transaction copy (over whatever `execute_transaction_internal` stored)
and the updated guardian map. -/
def approve_finish (s1 : ContractState) (gmap : List (Nat × Guardian))
    (guardian : Nat) (guardian_info1 : Guardian) (tx_id : Nat)
    (txn2 : Transaction) : ContractState :=
  let s2 := { s1 with transactions := storeSet s1.transactions tx_id txn2 }
  { s2 with guardians := some (storeSet gmap guardian guardian_info1) }

/-- `approve_transaction`: returns whether quorum was reached by this
call. -/
def approve_transaction (s : ContractState) (guardian : Nat) (tx_id : Nat)
    (now : Nat) : Except CustodyError (Bool × ContractState) :=
  if !s.inited then Except.error CustodyError.NotInited
  else if is_emergency_mode s then Except.error CustodyError.EmergencyActive
  else match s.guardians with
  | none => Except.error CustodyError.NotInited
  | some gmap =>
    match storeGet gmap guardian with
    | none => Except.error CustodyError.NotAGuardian
    | some guardian_info =>
      if !guardian_info.is_active then Except.error CustodyError.GuardianInactive
      else match storeGet s.transactions tx_id with
      | none => Except.error CustodyError.TransactionNotFound
      | some txn =>
        if txn.approvals.contains guardian then Except.error CustodyError.DuplicateApproval
        else if txn.status ≠ TxStatus.AwaitingApproval then
          Except.error CustodyError.InvalidTransactionState
        else match s.system_limits with
        | none => Except.error CustodyError.MissingData
        | some system_limits =>
          match (if decide (txn.approvals.length + 1 ≥ system_limits.required_approvals) then
                   execute_transaction_internal s tx_id now
                 else Except.ok s) with
          | Except.error e => Except.error e
          | Except.ok s1 =>
            Except.ok (decide (txn.approvals.length + 1 ≥ system_limits.required_approvals),
              approve_finish s1 gmap guardian
                { guardian_info with
                  approval_count := guardian_info.approval_count + 1
                  last_approval := now }
                tx_id
                (approved_txn txn guardian
                  (decide (txn.approvals.length + 1 ≥ system_limits.required_approvals))))

/-- `emergency_shutdown`: an authenticated active guardian trips the
global emergency flag and records itself as initiator. -/
def emergency_shutdown (s : ContractState) (guardian : Nat) :
    Except CustodyError ContractState :=
  if !s.inited then Except.error CustodyError.NotInited
  else match s.guardians with
  | none => Except.error CustodyError.NotInited
  | some gmap =>
    match storeGet gmap guardian with
    | none => Except.error CustodyError.NotAGuardian
    | some guardian_info =>
      if !guardian_info.is_active then Except.error CustodyError.GuardianInactive
      else Except.ok { s with
        emergency_mode := some true
        emergency_initiator := some guardian }

/-- The public mutating entry points (authenticated calls). -/
inductive Op
  | opInit (guardians : List Guardian) (hot_wallet cold_wallet : Nat)
      (limits : SystemLimits)
  | opCreate (from_wallet to_address : Nat) (amount : Int) (memo : Nat)
      (tx_type : TxType) (now : Nat)
  | opApprove (guardian : Nat) (tx_id : Nat) (now : Nat)
  | opShutdown (guardian : Nat)

/-- The raw call of an entry point, keeping only the state component. -/
def opCall (s : ContractState) : Op → Except CustodyError ContractState
  | Op.opInit gs hw cw lim => initContract s gs hw cw lim
  | Op.opCreate fw ta amt memo ty now =>
    (create_transaction s fw ta amt memo ty now).map (fun r => r.2)
  | Op.opApprove g t now => (approve_transaction s g t now).map (fun r => r.2)
  | Op.opShutdown g => emergency_shutdown s g

/-- Host semantics of a call: commit the new state on success, discard
everything on panic. -/
def applyOp (s : ContractState) (op : Op) : ContractState :=
  match opCall s op with
  | Except.ok s1 => s1
  | Except.error _ => s

/-- States reachable from a fresh deployment by the public entry points. -/
def runOps (ops : List Op) : ContractState :=
  ops.foldl applyOp emptyState

instance {ε α : Type} [DecidableEq ε] [DecidableEq α] : DecidableEq (Except ε α) :=
  fun a b =>
    match a, b with
    | Except.ok x, Except.ok y =>
      if h : x = y then isTrue (by rw [h]) else isFalse (by intro hc; cases hc; exact h rfl)
    | Except.error x, Except.error y =>
      if h : x = y then isTrue (by rw [h]) else isFalse (by intro hc; cases hc; exact h rfl)
    | Except.ok _, Except.error _ => isFalse (by intro hc; cases hc)
    | Except.error _, Except.ok _ => isFalse (by intro hc; cases hc)

/-! ### Invariant predicates -/

/-- Per-wallet bound claimed by the spec: `0 ≤ reserved_balance ≤ balance`
for every stored wallet record. -/
def WalletInv (s : ContractState) : Prop :=
  ∀ p ∈ s.wallets, 0 ≤ p.2.reserved_balance ∧ p.2.reserved_balance ≤ p.2.balance

instance (s : ContractState) : Decidable (WalletInv s) := by
  unfold WalletInv
  infer_instance

/-- In states reachable by the public entry points alone there is no
funding path: every stored wallet has zero balance and zero reserved
balance, and no transaction exists. -/
def UnfundedInv (s : ContractState) : Prop :=
  (∀ p ∈ s.wallets, p.2.balance = 0 ∧ p.2.reserved_balance = 0) ∧
    s.transactions = []

/-- Every stored transaction carries a positive amount (established by
`create_transaction`'s `amount > 0` gate). -/
def TxAmountsPos (s : ContractState) : Prop :=
  ∀ p ∈ s.transactions, 0 < p.2.amount

instance (s : ContractState) : Decidable (TxAmountsPos s) := by
  unfold TxAmountsPos
  infer_instance

/-- Lookup of the last entry with a given address in a guardian vector. -/
def lastLookup (gs : List Guardian) (k : Nat) : Option Guardian :=
  gs.reverse.find? (fun g => g.address == k)

/-! ### Concrete fixtures, mirroring the repository's test module:
three active guardians, hot wallet address 1, cold wallet address 2,
`high_value_threshold = 1000`, `required_approvals = 2`, and the hot
wallet funded to 10000 by a direct storage write exactly as
`test_create_transaction` does. -/

def gA : Guardian :=
  { address := 11
    role := 0
    is_active := true
    daily_limit := 100000
    monthly_limit := 1000000
    approval_count := 0
    last_approval := 0 }

def gB : Guardian := { gA with address := 12, role := 1 }

def gC : Guardian := { gA with address := 13, role := 2 }

def limits0 : SystemLimits :=
  { daily_limit := 100000
    monthly_limit := 1000000
    high_value_threshold := 1000
    required_approvals := 2
    cold_wallet_percentage := 95
    hot_wallet_percentage := 5 }

def sInit : ContractState := applyOp emptyState (Op.opInit [gA, gB, gC] 1 2 limits0)

def hotFundedInfo : WalletInfo :=
  { address := 1
    wallet_type := WalletType.Hot
    balance := 10000
    reserved_balance := 0
    is_active := true }

def sFunded : ContractState :=
  { sInit with wallets := storeSet sInit.wallets 1 hotFundedInfo }

def c2s1 : ContractState := applyOp sFunded (Op.opCreate 1 99 2000 0 TxType.Payment 100)

def c2s2 : ContractState := applyOp c2s1 (Op.opApprove 11 1 200)

def c2s3 : ContractState := applyOp c2s2 (Op.opApprove 12 1 300)

/-- A funded hot wallet that already carries an outstanding reservation of
60 against a balance of 100 (as after an awaiting-approval transaction). -/
def c1Wallet : WalletInfo :=
  { address := 1
    wallet_type := WalletType.Hot
    balance := 100
    reserved_balance := 60
    is_active := true }

def c1Limits : SystemLimits := { limits0 with high_value_threshold := 50 }

def c1State : ContractState :=
  { sInit with
    system_limits := some c1Limits
    wallets := storeSet sInit.wallets 1 c1Wallet }

def c4s1 : ContractState := applyOp sFunded (Op.opShutdown 11)

def c4s2 : ContractState := applyOp c4s1 (Op.opShutdown 12)

/-- Two guardians sharing address 11, as duplicate initialization input. -/
def gAdup : Guardian := { gA with role := 7 }

def c8s : ContractState := applyOp emptyState (Op.opInit [gA, gAdup, gC] 5 5 limits0)

/-! ### Storage lemmas -/

theorem storeGet_storeSet {α : Type} (m : List (Nat × α)) (a k : Nat) (v : α) :
    storeGet (storeSet m a v) k = if k = a then some v else storeGet m k := by
  induction m with
  | nil =>
    by_cases h : k = a
    · simp [storeGet, storeSet, h]
    · have h2 : ¬ a = k := fun hh => h hh.symm
      simp [storeGet, storeSet, h, h2]
  | cons q rest ih =>
    by_cases hq : q.1 = a
    · simp only [storeSet, hq, if_pos]
      by_cases hk : k = a
      · simp [storeGet, hk]
      · have h2 : ¬ a = k := fun hh => hk hh.symm
        have hqk : ¬ q.1 = k := by rw [hq]; exact h2
        simp [storeGet, h2, hk, hqk]
    · simp only [storeSet, hq, if_neg, not_false_iff]
      by_cases hqk : q.1 = k
      · have hk : ¬ k = a := by rw [← hqk]; exact hq
        simp [storeGet, hqk, hk]
      · simp [storeGet, hqk, ih]

theorem storeGet_storeSet_self {α : Type} (m : List (Nat × α)) (k : Nat) (v : α) :
    storeGet (storeSet m k v) k = some v := by
  simp [storeGet_storeSet]

theorem storeGet_storeSet_ne {α : Type} (m : List (Nat × α)) {a k : Nat} (v : α)
    (h : k ≠ a) : storeGet (storeSet m a v) k = storeGet m k := by
  simp [storeGet_storeSet, h]

theorem mem_storeSet {α : Type} {m : List (Nat × α)} {a : Nat} {v : α}
    {p : Nat × α} (h : p ∈ storeSet m a v) : p = (a, v) ∨ p ∈ m := by
  induction m with
  | nil =>
    simp [storeSet] at h
    exact Or.inl h
  | cons q rest ih =>
    by_cases hq : q.1 = a
    · simp only [storeSet, hq, if_pos] at h
      rcases List.mem_cons.mp h with h1 | h1
      · exact Or.inl h1
      · exact Or.inr (List.mem_cons_of_mem _ h1)
    · simp only [storeSet, hq, if_neg, not_false_iff] at h
      rcases List.mem_cons.mp h with h1 | h1
      · exact Or.inr (by rw [h1]; exact List.mem_cons_self _ _)
      · rcases ih h1 with h2 | h2
        · exact Or.inl h2
        · exact Or.inr (List.mem_cons_of_mem _ h2)

theorem storeGet_mem {α : Type} {m : List (Nat × α)} {k : Nat} {v : α}
    (h : storeGet m k = some v) : (k, v) ∈ m := by
  induction m with
  | nil => simp [storeGet] at h
  | cons q rest ih =>
    by_cases hq : q.1 = k
    · simp only [storeGet, hq, if_pos, Option.some.injEq] at h
      have hqv : q = (k, v) := by
        obtain ⟨q1, q2⟩ := q
        simp only at hq h
        rw [hq, h]
      rw [hqv]
      exact List.mem_cons_self _ _
    · simp only [storeGet, hq, if_neg, not_false_iff] at h
      exact List.mem_cons_of_mem _ (ih h)

theorem storeSet_storeSet_same {α : Type} (m : List (Nat × α)) (a : Nat)
    (v1 v2 : α) : storeSet (storeSet m a v1) a v2 = storeSet m a v2 := by
  induction m with
  | nil => simp [storeSet]
  | cons q rest ih =>
    by_cases hq : q.1 = a
    · simp [storeSet, hq]
    · simp [storeSet, hq, ih]

theorem storeSet_length_le {α : Type} (m : List (Nat × α)) (a : Nat) (v : α) :
    (storeSet m a v).length ≤ m.length + 1 := by
  induction m with
  | nil => simp [storeSet]
  | cons q rest ih =>
    by_cases hq : q.1 = a
    · simp [storeSet, hq]
    · simp only [storeSet, hq, if_neg, not_false_iff, List.length_cons]
      omega

theorem storeSet_length_of_get {α : Type} {m : List (Nat × α)} {a : Nat}
    (v : α) (h : (storeGet m a).isSome) : (storeSet m a v).length = m.length := by
  induction m with
  | nil => simp [storeGet] at h
  | cons q rest ih =>
    by_cases hq : q.1 = a
    · simp [storeSet, hq]
    · rw [storeGet, if_neg hq] at h
      simp [storeSet, hq, ih h]

/-! ### Projection lemmas for the state-transformer pieces -/

@[simp] theorem init_state_inited (s : ContractState) (gs : List Guardian)
    (hw cw : Nat) (lim : SystemLimits) :
    (init_state s gs hw cw lim).inited = true := rfl

@[simp] theorem init_state_guardians (s : ContractState) (gs : List Guardian)
    (hw cw : Nat) (lim : SystemLimits) :
    (init_state s gs hw cw lim).guardians =
      some (gs.foldl (fun m g => storeSet m g.address g) []) := rfl

@[simp] theorem init_state_guardian_count (s : ContractState) (gs : List Guardian)
    (hw cw : Nat) (lim : SystemLimits) :
    (init_state s gs hw cw lim).guardian_count = some 3 := rfl

@[simp] theorem init_state_wallets (s : ContractState) (gs : List Guardian)
    (hw cw : Nat) (lim : SystemLimits) :
    (init_state s gs hw cw lim).wallets =
      storeSet (storeSet s.wallets hw (fresh_wallet hw WalletType.Hot))
        cw (fresh_wallet cw WalletType.Cold) := rfl

@[simp] theorem init_state_transactions (s : ContractState) (gs : List Guardian)
    (hw cw : Nat) (lim : SystemLimits) :
    (init_state s gs hw cw lim).transactions = s.transactions := rfl

@[simp] theorem init_state_counter (s : ContractState) (gs : List Guardian)
    (hw cw : Nat) (lim : SystemLimits) :
    (init_state s gs hw cw lim).transaction_counter = some 0 := rfl

@[simp] theorem init_state_emergency (s : ContractState) (gs : List Guardian)
    (hw cw : Nat) (lim : SystemLimits) :
    (init_state s gs hw cw lim).emergency_mode = some false := rfl

@[simp] theorem init_state_initiator (s : ContractState) (gs : List Guardian)
    (hw cw : Nat) (lim : SystemLimits) :
    (init_state s gs hw cw lim).emergency_initiator = s.emergency_initiator := rfl

@[simp] theorem init_state_system_limits (s : ContractState) (gs : List Guardian)
    (hw cw : Nat) (lim : SystemLimits) :
    (init_state s gs hw cw lim).system_limits = some lim := rfl

@[simp] theorem update_spending_wallets (s : ContractState) (a : Int) (n : Nat) :
    (update_spending_tracking s a n).wallets = s.wallets := rfl

@[simp] theorem update_spending_transactions (s : ContractState) (a : Int) (n : Nat) :
    (update_spending_tracking s a n).transactions = s.transactions := rfl

@[simp] theorem update_spending_inited (s : ContractState) (a : Int) (n : Nat) :
    (update_spending_tracking s a n).inited = s.inited := rfl

@[simp] theorem update_spending_emergency (s : ContractState) (a : Int) (n : Nat) :
    (update_spending_tracking s a n).emergency_mode = s.emergency_mode := rfl

@[simp] theorem update_spending_initiator (s : ContractState) (a : Int) (n : Nat) :
    (update_spending_tracking s a n).emergency_initiator = s.emergency_initiator := rfl

@[simp] theorem update_spending_guardians (s : ContractState) (a : Int) (n : Nat) :
    (update_spending_tracking s a n).guardians = s.guardians := rfl

@[simp] theorem update_spending_system_limits (s : ContractState) (a : Int) (n : Nat) :
    (update_spending_tracking s a n).system_limits = s.system_limits := rfl

@[simp] theorem update_spending_counter (s : ContractState) (a : Int) (n : Nat) :
    (update_spending_tracking s a n).transaction_counter = s.transaction_counter := rfl

@[simp] theorem execute_result_wallets (s : ContractState) (tid now : Nat)
    (txn : Transaction) (fw : WalletInfo) :
    (execute_result s tid now txn fw).wallets =
      storeSet s.wallets txn.from_wallet
        { fw with balance := fw.balance - txn.amount
                  reserved_balance := fw.reserved_balance - txn.amount } := rfl

@[simp] theorem execute_result_transactions (s : ContractState) (tid now : Nat)
    (txn : Transaction) (fw : WalletInfo) :
    (execute_result s tid now txn fw).transactions =
      storeSet s.transactions tid
        { txn with status := TxStatus.Executed, executed_at := some now } := rfl

@[simp] theorem execute_result_inited (s : ContractState) (tid now : Nat)
    (txn : Transaction) (fw : WalletInfo) :
    (execute_result s tid now txn fw).inited = s.inited := rfl

@[simp] theorem execute_result_emergency (s : ContractState) (tid now : Nat)
    (txn : Transaction) (fw : WalletInfo) :
    (execute_result s tid now txn fw).emergency_mode = s.emergency_mode := rfl

@[simp] theorem execute_result_initiator (s : ContractState) (tid now : Nat)
    (txn : Transaction) (fw : WalletInfo) :
    (execute_result s tid now txn fw).emergency_initiator = s.emergency_initiator := rfl

@[simp] theorem execute_result_guardians (s : ContractState) (tid now : Nat)
    (txn : Transaction) (fw : WalletInfo) :
    (execute_result s tid now txn fw).guardians = s.guardians := rfl

@[simp] theorem execute_result_system_limits (s : ContractState) (tid now : Nat)
    (txn : Transaction) (fw : WalletInfo) :
    (execute_result s tid now txn fw).system_limits = s.system_limits := rfl

@[simp] theorem reserve_and_store_wallets (s : ContractState) (fw : Nat)
    (w : WalletInfo) (amt : Int) (tid : Nat) (txn : Transaction) :
    (reserve_and_store s fw w amt tid txn).wallets =
      storeSet s.wallets fw { w with reserved_balance := w.reserved_balance + amt } := rfl

@[simp] theorem reserve_and_store_transactions (s : ContractState) (fw : Nat)
    (w : WalletInfo) (amt : Int) (tid : Nat) (txn : Transaction) :
    (reserve_and_store s fw w amt tid txn).transactions =
      storeSet s.transactions tid txn := rfl

@[simp] theorem reserve_and_store_inited (s : ContractState) (fw : Nat)
    (w : WalletInfo) (amt : Int) (tid : Nat) (txn : Transaction) :
    (reserve_and_store s fw w amt tid txn).inited = s.inited := rfl

@[simp] theorem reserve_and_store_emergency (s : ContractState) (fw : Nat)
    (w : WalletInfo) (amt : Int) (tid : Nat) (txn : Transaction) :
    (reserve_and_store s fw w amt tid txn).emergency_mode = s.emergency_mode := rfl

@[simp] theorem reserve_and_store_initiator (s : ContractState) (fw : Nat)
    (w : WalletInfo) (amt : Int) (tid : Nat) (txn : Transaction) :
    (reserve_and_store s fw w amt tid txn).emergency_initiator = s.emergency_initiator := rfl

@[simp] theorem reserve_and_store_guardians (s : ContractState) (fw : Nat)
    (w : WalletInfo) (amt : Int) (tid : Nat) (txn : Transaction) :
    (reserve_and_store s fw w amt tid txn).guardians = s.guardians := rfl

@[simp] theorem reserve_and_store_system_limits (s : ContractState) (fw : Nat)
    (w : WalletInfo) (amt : Int) (tid : Nat) (txn : Transaction) :
    (reserve_and_store s fw w amt tid txn).system_limits = s.system_limits := rfl

@[simp] theorem new_transaction_from_wallet (tid fw ta : Nat) (amt : Int)
    (memo : Nat) (ty : TxType) (now : Nat) (ra : Bool) :
    (new_transaction tid fw ta amt memo ty now ra).from_wallet = fw := rfl

@[simp] theorem new_transaction_amount (tid fw ta : Nat) (amt : Int)
    (memo : Nat) (ty : TxType) (now : Nat) (ra : Bool) :
    (new_transaction tid fw ta amt memo ty now ra).amount = amt := rfl

@[simp] theorem new_transaction_status (tid fw ta : Nat) (amt : Int)
    (memo : Nat) (ty : TxType) (now : Nat) (ra : Bool) :
    (new_transaction tid fw ta amt memo ty now ra).status =
      if ra then TxStatus.AwaitingApproval else TxStatus.Pending := rfl

@[simp] theorem new_transaction_executed_at (tid fw ta : Nat) (amt : Int)
    (memo : Nat) (ty : TxType) (now : Nat) (ra : Bool) :
    (new_transaction tid fw ta amt memo ty now ra).executed_at = none := rfl

@[simp] theorem new_transaction_requires (tid fw ta : Nat) (amt : Int)
    (memo : Nat) (ty : TxType) (now : Nat) (ra : Bool) :
    (new_transaction tid fw ta amt memo ty now ra).requires_approval = ra := rfl

@[simp] theorem new_transaction_approvals (tid fw ta : Nat) (amt : Int)
    (memo : Nat) (ty : TxType) (now : Nat) (ra : Bool) :
    (new_transaction tid fw ta amt memo ty now ra).approvals = [] := rfl

@[simp] theorem approved_txn_approvals (txn : Transaction) (g : Nat) (q : Bool) :
    (approved_txn txn g q).approvals = txn.approvals ++ [g] := by
  cases q <;> rfl

@[simp] theorem approved_txn_amount (txn : Transaction) (g : Nat) (q : Bool) :
    (approved_txn txn g q).amount = txn.amount := by
  cases q <;> rfl

@[simp] theorem approved_txn_from_wallet (txn : Transaction) (g : Nat) (q : Bool) :
    (approved_txn txn g q).from_wallet = txn.from_wallet := by
  cases q <;> rfl

@[simp] theorem approved_txn_executed_at (txn : Transaction) (g : Nat) (q : Bool) :
    (approved_txn txn g q).executed_at = txn.executed_at := by
  cases q <;> rfl

@[simp] theorem approved_txn_status (txn : Transaction) (g : Nat) (q : Bool) :
    (approved_txn txn g q).status =
      if q then TxStatus.Approved else txn.status := by
  cases q <;> rfl

@[simp] theorem approve_finish_wallets (s1 : ContractState)
    (gmap : List (Nat × Guardian)) (g : Nat) (gi1 : Guardian) (t : Nat)
    (txn2 : Transaction) :
    (approve_finish s1 gmap g gi1 t txn2).wallets = s1.wallets := rfl

@[simp] theorem approve_finish_transactions (s1 : ContractState)
    (gmap : List (Nat × Guardian)) (g : Nat) (gi1 : Guardian) (t : Nat)
    (txn2 : Transaction) :
    (approve_finish s1 gmap g gi1 t txn2).transactions =
      storeSet s1.transactions t txn2 := rfl

@[simp] theorem approve_finish_guardians (s1 : ContractState)
    (gmap : List (Nat × Guardian)) (g : Nat) (gi1 : Guardian) (t : Nat)
    (txn2 : Transaction) :
    (approve_finish s1 gmap g gi1 t txn2).guardians =
      some (storeSet gmap g gi1) := rfl

@[simp] theorem approve_finish_inited (s1 : ContractState)
    (gmap : List (Nat × Guardian)) (g : Nat) (gi1 : Guardian) (t : Nat)
    (txn2 : Transaction) :
    (approve_finish s1 gmap g gi1 t txn2).inited = s1.inited := rfl

@[simp] theorem approve_finish_emergency (s1 : ContractState)
    (gmap : List (Nat × Guardian)) (g : Nat) (gi1 : Guardian) (t : Nat)
    (txn2 : Transaction) :
    (approve_finish s1 gmap g gi1 t txn2).emergency_mode = s1.emergency_mode := rfl

@[simp] theorem approve_finish_initiator (s1 : ContractState)
    (gmap : List (Nat × Guardian)) (g : Nat) (gi1 : Guardian) (t : Nat)
    (txn2 : Transaction) :
    (approve_finish s1 gmap g gi1 t txn2).emergency_initiator = s1.emergency_initiator := rfl

@[simp] theorem approve_finish_system_limits (s1 : ContractState)
    (gmap : List (Nat × Guardian)) (g : Nat) (gi1 : Guardian) (t : Nat)
    (txn2 : Transaction) :
    (approve_finish s1 gmap g gi1 t txn2).system_limits = s1.system_limits := rfl

/-! ### Inversion lemmas for successful calls -/

theorem bnot_true_elim {b : Bool} (h : ¬((!b) = true)) : b = true := by
  cases b
  · exact absurd rfl h
  · rfl

theorem bool_eq_false {b : Bool} (h : ¬(b = true)) : b = false := by
  cases b
  · rfl
  · exact absurd rfl h

theorem execute_ok_cases {s : ContractState} {tid now : Nat} {s1 : ContractState}
    (h : execute_transaction_internal s tid now = Except.ok s1) :
    ∃ txn fw, storeGet s.transactions tid = some txn ∧
      storeGet s.wallets txn.from_wallet = some fw ∧
      s1 = execute_result s tid now txn fw := by
  unfold execute_transaction_internal at h
  split at h
  · simp at h
  next txn htx =>
    split at h
    · simp at h
    next fw hfw =>
      simp only [Except.ok.injEq] at h
      exact ⟨txn, fw, htx, hfw, h.symm⟩

theorem create_ok_cases {s : ContractState} {fw ta : Nat} {amt : Int}
    {memo : Nat} {ty : TxType} {now tid : Nat} {s1 : ContractState}
    (h : create_transaction s fw ta amt memo ty now = Except.ok (tid, s1)) :
    s.inited = true ∧ is_emergency_mode s = false ∧ 0 < amt ∧
    tid = s.transaction_counter.getD 0 + 1 ∧
    ∃ w limits, storeGet s.wallets fw = some w ∧ amt ≤ w.balance ∧
      s.system_limits = some limits ∧
      ((requiresApproval limits amt w = true ∧
          check_spending_limits s amt now = Except.ok () ∧
          s1 = reserve_and_store s fw w amt tid
            (new_transaction tid fw ta amt memo ty now true)) ∨
       (requiresApproval limits amt w = false ∧
          execute_transaction_internal
            (reserve_and_store s fw w amt tid
              (new_transaction tid fw ta amt memo ty now false)) tid now
            = Except.ok s1)) := by
  unfold create_transaction at h
  split at h
  · simp at h
  next hinit =>
  split at h
  · simp at h
  next hem =>
  split at h
  · simp at h
  next hamt =>
  split at h
  · simp at h
  next w hw =>
  split at h
  · simp at h
  next hbal =>
  split at h
  · simp at h
  next limits hlim =>
  split at h
  · simp at h
  next u hchk =>
  have hinit2 : s.inited = true := bnot_true_elim hinit
  have hem2 : is_emergency_mode s = false := bool_eq_false hem
  have hamt2 : 0 < amt := by omega
  have hbal2 : amt ≤ w.balance := by omega
  split at h
  next hra =>
    -- no-approval path: executed within the same call
    have hra2 : requiresApproval limits amt w = false := by
      cases hb : requiresApproval limits amt w
      · rfl
      · rw [hb] at hra; simp at hra
    rw [hra2] at h
    split at h
    · simp at h
    next s3 hexec =>
      simp only [Except.ok.injEq, Prod.mk.injEq] at h
      obtain ⟨htid, hs3⟩ := h
      refine ⟨hinit2, hem2, hamt2, htid.symm, w, limits, hw, hbal2, hlim,
        Or.inr ⟨hra2, ?_⟩⟩
      rw [← htid, ← hs3]
      exact hexec
  next hra =>
    have hra2 : requiresApproval limits amt w = true := bnot_true_elim hra
    have hchk2 : check_spending_limits s amt now = Except.ok () := by
      rw [hra2] at hchk
      simp only [if_pos] at hchk
      cases u
      exact hchk
    simp only [Except.ok.injEq, Prod.mk.injEq] at h
    obtain ⟨htid, hs1⟩ := h
    refine ⟨hinit2, hem2, hamt2, htid.symm, w, limits, hw, hbal2, hlim,
      Or.inl ⟨hra2, hchk2, ?_⟩⟩
    rw [← htid, ← hra2]
    exact hs1.symm

theorem approve_ok_cases {s : ContractState} {g t now : Nat} {b : Bool}
    {s1 : ContractState}
    (h : approve_transaction s g t now = Except.ok (b, s1)) :
    s.inited = true ∧ is_emergency_mode s = false ∧
    ∃ gmap gi txn limits, s.guardians = some gmap ∧ storeGet gmap g = some gi ∧
      gi.is_active = true ∧ storeGet s.transactions t = some txn ∧
      txn.approvals.contains g = false ∧ txn.status = TxStatus.AwaitingApproval ∧
      s.system_limits = some limits ∧
      b = decide (txn.approvals.length + 1 ≥ limits.required_approvals) ∧
      ((b = false ∧
          s1 = approve_finish s gmap g
            { gi with approval_count := gi.approval_count + 1, last_approval := now }
            t (approved_txn txn g false)) ∨
       (b = true ∧ ∃ fw0, storeGet s.wallets txn.from_wallet = some fw0 ∧
          s1 = approve_finish (execute_result s t now txn fw0) gmap g
            { gi with approval_count := gi.approval_count + 1, last_approval := now }
            t (approved_txn txn g true))) := by
  unfold approve_transaction at h
  split at h
  · simp at h
  next hinit =>
  split at h
  · simp at h
  next hem =>
  split at h
  · simp at h
  next gmap hgm =>
  split at h
  · simp at h
  next gi hgi =>
  split at h
  · simp at h
  next hact =>
  split at h
  · simp at h
  next txn htx =>
  split at h
  · simp at h
  next hdup =>
  split at h
  · simp at h
  next hstat =>
  split at h
  · simp at h
  next limits hlim =>
  have hinit2 : s.inited = true := bnot_true_elim hinit
  have hem2 : is_emergency_mode s = false := bool_eq_false hem
  have hact2 : gi.is_active = true := bnot_true_elim hact
  have hdup2 : txn.approvals.contains g = false := bool_eq_false hdup
  have hstat2 : txn.status = TxStatus.AwaitingApproval := not_not.mp hstat
  split at h
  · simp at h
  next s2 hrun =>
    simp only [Except.ok.injEq, Prod.mk.injEq] at h
    obtain ⟨hb, hs1⟩ := h
    refine ⟨hinit2, hem2, gmap, gi, txn, limits, hgm, hgi, hact2, htx, hdup2,
      hstat2, hlim, hb.symm, ?_⟩
    by_cases hq : decide (txn.approvals.length + 1 ≥ limits.required_approvals) = true
    · right
      rw [if_pos hq] at hrun
      obtain ⟨txn0, fw0, htx0, hfw0, hs2⟩ := execute_ok_cases hrun
      rw [htx] at htx0
      obtain rfl : txn0 = txn := by
        simp only [Option.some.injEq] at htx0
        exact htx0.symm
      refine ⟨by rw [← hb]; exact hq, fw0, hfw0, ?_⟩
      rw [← hs1, hs2, hq]
    · left
      have hq2 : decide (txn.approvals.length + 1 ≥ limits.required_approvals) = false :=
        bool_eq_false hq
      rw [if_neg hq] at hrun
      simp only [Except.ok.injEq] at hrun
      refine ⟨by rw [← hb]; exact hq2, ?_⟩
      rw [← hs1, ← hrun, hq2]

theorem initContract_ok_cases {s : ContractState} {gs : List Guardian}
    {hw cw : Nat} {lim : SystemLimits} {s1 : ContractState}
    (h : initContract s gs hw cw lim = Except.ok s1) :
    s.inited = false ∧ gs.length = 3 ∧
    lim.cold_wallet_percentage + lim.hot_wallet_percentage = 100 ∧
    s1 = init_state s gs hw cw lim := by
  unfold initContract at h
  split at h
  · simp at h
  next hinit =>
  split at h
  · simp at h
  next hlen =>
  split at h
  · simp at h
  next hpct =>
  simp only [Except.ok.injEq] at h
  exact ⟨bool_eq_false hinit, not_not.mp hlen, not_not.mp hpct, h.symm⟩

theorem shutdown_ok_cases {s : ContractState} {g : Nat} {s1 : ContractState}
    (h : emergency_shutdown s g = Except.ok s1) :
    s.inited = true ∧
    ∃ gmap gi, s.guardians = some gmap ∧ storeGet gmap g = some gi ∧
      gi.is_active = true ∧
      s1 = { s with emergency_mode := some true, emergency_initiator := some g } := by
  unfold emergency_shutdown at h
  split at h
  · simp at h
  next hinit =>
  split at h
  · simp at h
  next gmap hgm =>
  split at h
  · simp at h
  next gi hgi =>
  split at h
  · simp at h
  next hact =>
  have hinit2 : s.inited = true := bnot_true_elim hinit
  have hact2 : gi.is_active = true := bnot_true_elim hact
  simp only [Except.ok.injEq] at h
  exact ⟨hinit2, gmap, gi, hgm, hgi, hact2, h.symm⟩

/-- `check_spending_limits` as a pure two-threshold test. -/
theorem check_spending_limits_spec (s : ContractState) (amt : Int) (now : Nat)
    (limits : SystemLimits) (hlim : s.system_limits = some limits) :
    check_spending_limits s amt now =
      (if (storeGet s.daily_spent (now / 86400)).getD 0 + amt > limits.daily_limit
       then Except.error CustodyError.LimitExceeded
       else if (storeGet s.monthly_spent (now / 86400 / 30)).getD 0 + amt >
           limits.monthly_limit
       then Except.error CustodyError.LimitExceeded
       else Except.ok ()) := by
  unfold check_spending_limits
  rw [hlim]

/-- Executing the transaction just stored by `create_transaction` always
succeeds: the transaction and the source wallet are both present. -/
theorem execute_after_reserve (s : ContractState) (fw ta : Nat) (amt : Int)
    (memo : Nat) (ty : TxType) (now tid : Nat) (w : WalletInfo) (ra : Bool) :
    execute_transaction_internal
        (reserve_and_store s fw w amt tid
          (new_transaction tid fw ta amt memo ty now ra)) tid now =
      Except.ok (execute_result
        (reserve_and_store s fw w amt tid
          (new_transaction tid fw ta amt memo ty now ra)) tid now
        (new_transaction tid fw ta amt memo ty now ra)
        { w with reserved_balance := w.reserved_balance + amt }) := by
  simp only [execute_transaction_internal, reserve_and_store_transactions,
    storeGet_storeSet_self, reserve_and_store_wallets, new_transaction_from_wallet]

theorem applyOp_of_error {s : ContractState} {op : Op} {e : CustodyError}
    (h : opCall s op = Except.error e) : applyOp s op = s := by
  unfold applyOp
  rw [h]

theorem applyOp_of_ok {s : ContractState} {op : Op} {s1 : ContractState}
    (h : opCall s op = Except.ok s1) : applyOp s op = s1 := by
  unfold applyOp
  rw [h]

/-! ### Step lemmas for the wallet-bound invariants -/

theorem unfunded_preserved (s : ContractState) (op : Op) (h : UnfundedInv s) :
    UnfundedInv (applyOp s op) := by
  obtain ⟨hw0, ht0⟩ := h
  cases op with
  | opInit gs hw cw lim =>
    cases hc : initContract s gs hw cw lim with
    | error e =>
      have hoc : opCall s (Op.opInit gs hw cw lim) = Except.error e := hc
      rw [applyOp_of_error hoc]
      exact ⟨hw0, ht0⟩
    | ok s1 =>
      have hoc : opCall s (Op.opInit gs hw cw lim) = Except.ok s1 := hc
      obtain ⟨_, _, _, hs1⟩ := initContract_ok_cases hc
      rw [applyOp_of_ok hoc, hs1]
      refine ⟨?_, by simp [ht0]⟩
      intro p hp
      simp only [init_state_wallets] at hp
      rcases mem_storeSet hp with h1 | h1
      · rw [h1]; exact ⟨rfl, rfl⟩
      · rcases mem_storeSet h1 with h2 | h2
        · rw [h2]; exact ⟨rfl, rfl⟩
        · exact hw0 p h2
  | opCreate fw ta amt memo ty now =>
    cases hc : create_transaction s fw ta amt memo ty now with
    | error e =>
      have hoc : opCall s (Op.opCreate fw ta amt memo ty now) = Except.error e := by
        simp only [opCall, hc, Except.map]
      rw [applyOp_of_error hoc]
      exact ⟨hw0, ht0⟩
    | ok r =>
      exfalso
      obtain ⟨tid, s1⟩ := r
      obtain ⟨_, _, hamt, _, w, limits, hwg, hbal, _, _⟩ := create_ok_cases hc
      have hmem := storeGet_mem hwg
      have := (hw0 _ hmem).1
      simp only at this
      omega
  | opApprove g t now =>
    cases hc : approve_transaction s g t now with
    | error e =>
      have hoc : opCall s (Op.opApprove g t now) = Except.error e := by
        simp only [opCall, hc, Except.map]
      rw [applyOp_of_error hoc]
      exact ⟨hw0, ht0⟩
    | ok r =>
      exfalso
      obtain ⟨b, s1⟩ := r
      obtain ⟨_, _, gmap, gi, txn, limits, _, _, _, htx, _⟩ := approve_ok_cases hc
      rw [ht0] at htx
      simp [storeGet] at htx
  | opShutdown g =>
    cases hc : emergency_shutdown s g with
    | error e =>
      have hoc : opCall s (Op.opShutdown g) = Except.error e := hc
      rw [applyOp_of_error hoc]
      exact ⟨hw0, ht0⟩
    | ok s1 =>
      have hoc : opCall s (Op.opShutdown g) = Except.ok s1 := hc
      obtain ⟨_, gmap, gi, _, _, _, hs1⟩ := shutdown_ok_cases hc
      rw [applyOp_of_ok hoc, hs1]
      exact ⟨hw0, ht0⟩

theorem runOps_unfunded (ops : List Op) : UnfundedInv (runOps ops) := by
  have hstep : ∀ s : ContractState, UnfundedInv s →
      UnfundedInv (ops.foldl applyOp s) := by
    induction ops with
    | nil => intro s h; exact h
    | cons op rest ih =>
      intro s h
      exact ih _ (unfunded_preserved s op h)
  refine hstep emptyState ⟨?_, rfl⟩
  intro p hp
  simp [emptyState] at hp

theorem walletBound_approve (s : ContractState) (g t now : Nat)
    (hInv : WalletInv s) :
    ∀ p ∈ (applyOp s (Op.opApprove g t now)).wallets,
      p.2.reserved_balance ≤ p.2.balance := by
  intro p hp
  cases hc : approve_transaction s g t now with
  | error e =>
    have hoc : opCall s (Op.opApprove g t now) = Except.error e := by
      simp only [opCall, hc, Except.map]
    rw [applyOp_of_error hoc] at hp
    exact (hInv p hp).2
  | ok r =>
    obtain ⟨b, s1⟩ := r
    have hoc : opCall s (Op.opApprove g t now) = Except.ok s1 := by
      simp only [opCall, hc, Except.map]
    rw [applyOp_of_ok hoc] at hp
    obtain ⟨_, _, gmap, gi, txn, limits, hgm, hgi, hact, htx, hdup, hstat, hlim,
      hb, hcase⟩ := approve_ok_cases hc
    rcases hcase with ⟨hbf, hs1⟩ | ⟨hbt, fw0, hfw0, hs1⟩
    · rw [hs1] at hp
      simp only [approve_finish_wallets] at hp
      exact (hInv p hp).2
    · rw [hs1] at hp
      simp only [approve_finish_wallets, execute_result_wallets] at hp
      rcases mem_storeSet hp with h1 | h1
      · have hb0 : 0 ≤ fw0.reserved_balance ∧ fw0.reserved_balance ≤ fw0.balance :=
          hInv _ (storeGet_mem hfw0)
        rw [h1]
        dsimp only
        omega
      · exact (hInv p h1).2

theorem walletInv_init (s : ContractState) (gs : List Guardian) (hw cw : Nat)
    (lim : SystemLimits) (hInv : WalletInv s) :
    WalletInv (applyOp s (Op.opInit gs hw cw lim)) := by
  cases hc : initContract s gs hw cw lim with
  | error e =>
    have hoc : opCall s (Op.opInit gs hw cw lim) = Except.error e := hc
    rw [applyOp_of_error hoc]
    exact hInv
  | ok s1 =>
    have hoc : opCall s (Op.opInit gs hw cw lim) = Except.ok s1 := hc
    obtain ⟨_, _, _, hs1⟩ := initContract_ok_cases hc
    rw [applyOp_of_ok hoc, hs1]
    intro p hp
    simp only [init_state_wallets] at hp
    rcases mem_storeSet hp with h1 | h1
    · rw [h1]; exact ⟨le_rfl, le_rfl⟩
    · rcases mem_storeSet h1 with h2 | h2
      · rw [h2]; exact ⟨le_rfl, le_rfl⟩
      · exact hInv p h2

theorem walletInv_shutdown (s : ContractState) (g : Nat) (hInv : WalletInv s) :
    WalletInv (applyOp s (Op.opShutdown g)) := by
  cases hc : emergency_shutdown s g with
  | error e =>
    have hoc : opCall s (Op.opShutdown g) = Except.error e := hc
    rw [applyOp_of_error hoc]
    exact hInv
  | ok s1 =>
    have hoc : opCall s (Op.opShutdown g) = Except.ok s1 := hc
    obtain ⟨_, gmap, gi, _, _, _, hs1⟩ := shutdown_ok_cases hc
    rw [applyOp_of_ok hoc, hs1]
    intro p hp
    exact hInv p hp

theorem walletInv_create_slack (s : ContractState) (fw ta : Nat) (amt : Int)
    (memo : Nat) (ty : TxType) (now : Nat) (w : WalletInfo) (hInv : WalletInv s)
    (hget : storeGet s.wallets fw = some w)
    (hslack : w.reserved_balance + amt ≤ w.balance) :
    WalletInv (applyOp s (Op.opCreate fw ta amt memo ty now)) := by
  cases hc : create_transaction s fw ta amt memo ty now with
  | error e =>
    have hoc : opCall s (Op.opCreate fw ta amt memo ty now) = Except.error e := by
      simp only [opCall, hc, Except.map]
    rw [applyOp_of_error hoc]
    exact hInv
  | ok r =>
    obtain ⟨tid, s1⟩ := r
    have hoc : opCall s (Op.opCreate fw ta amt memo ty now) = Except.ok s1 := by
      simp only [opCall, hc, Except.map]
    rw [applyOp_of_ok hoc]
    obtain ⟨_, _, hamt, htid, w', limits, hget', hbal, hlim, hcase⟩ :=
      create_ok_cases hc
    have hww : w = w' := by
      rw [hget] at hget'
      exact Option.some.inj hget'
    subst hww
    have hb0 : 0 ≤ w.reserved_balance ∧ w.reserved_balance ≤ w.balance :=
      hInv _ (storeGet_mem hget)
    rcases hcase with ⟨hra, hchk, hs1⟩ | ⟨hra, hexec⟩
    · rw [hs1]
      intro p hp
      simp only [reserve_and_store_wallets] at hp
      rcases mem_storeSet hp with h1 | h1
      · rw [h1]
        dsimp only
        constructor
        · omega
        · omega
      · exact hInv p h1
    · obtain ⟨txn0, fw0, htx0, hfw0, hs1⟩ := execute_ok_cases hexec
      rw [reserve_and_store_transactions, storeGet_storeSet_self] at htx0
      obtain rfl : txn0 = new_transaction tid fw ta amt memo ty now false :=
        (Option.some.inj htx0).symm
      rw [reserve_and_store_wallets, new_transaction_from_wallet,
        storeGet_storeSet_self] at hfw0
      obtain rfl : fw0 = { w with reserved_balance := w.reserved_balance + amt } :=
        (Option.some.inj hfw0).symm
      rw [hs1]
      intro p hp
      simp only [execute_result_wallets, reserve_and_store_wallets,
        new_transaction_from_wallet, new_transaction_amount] at hp
      rw [storeSet_storeSet_same] at hp
      rcases mem_storeSet hp with h1 | h1
      · rw [h1]
        dsimp only
        constructor
        · omega
        · omega
      · exact hInv p h1

/-- C1 counterexample: a state whose hot wallet has balance 100 with an
outstanding reservation of 60 satisfies `0 ≤ reserved_balance ≤ balance`,
yet a `create_transaction` of amount 60 succeeds — the reservation gate
checks only `balance ≥ amount`, ignoring the existing reservation — and
leaves `reserved_balance = 120 > 100 = balance`. -/
theorem C1_counterexample :
    WalletInv c1State ∧
    ¬ WalletInv (applyOp c1State (Op.opCreate 1 99 60 0 TxType.Payment 0)) := by
  decide

/-- C1 (amended): every wallet's `reserved_balance` stays non-negative and
bounded by `balance` in all states reachable from a fresh deployment by
the public operations alone (no funding path exists, so balances stay 0);
as step properties from an arbitrary state satisfying the bound:
execution subtracts the same amount from both fields, so
`approve_transaction` preserves `reserved_balance ≤ balance`;
`initialize` and `emergency_shutdown` preserve the full bound; and
`create_transaction` preserves it only under the stronger gate
`reserved_balance + amount ≤ balance` — the code's `balance ≥ amount` gate
alone does not (see the counterexample). -/
theorem C1_reserved_bound :
    (∀ ops : List Op, WalletInv (runOps ops)) ∧
    (∀ s g t now, WalletInv s →
      ∀ p ∈ (applyOp s (Op.opApprove g t now)).wallets,
        p.2.reserved_balance ≤ p.2.balance) ∧
    (∀ s gs hw cw lim, WalletInv s →
      WalletInv (applyOp s (Op.opInit gs hw cw lim))) ∧
    (∀ s g, WalletInv s → WalletInv (applyOp s (Op.opShutdown g))) ∧
    (∀ s fw ta amt memo ty now w, WalletInv s →
      storeGet s.wallets fw = some w → w.reserved_balance + amt ≤ w.balance →
      WalletInv (applyOp s (Op.opCreate fw ta amt memo ty now))) := by
  refine ⟨?_, walletBound_approve, walletInv_init, walletInv_shutdown, ?_⟩
  · intro ops p hp
    have h := (runOps_unfunded ops).1 p hp
    constructor
    · omega
    · omega
  · intro s fw ta amt memo ty now w hInv hget hslack
    exact walletInv_create_slack s fw ta amt memo ty now w hInv hget hslack

/-- C1 witness: the amended create-step bound applied to the funded test
state, creating a 500 payment from the hot wallet. -/
theorem C1_reserved_bound_witness :
    WalletInv (applyOp sFunded (Op.opCreate 1 99 500 0 TxType.Payment 0)) :=
  C1_reserved_bound.2.2.2.2 sFunded 1 99 500 0 TxType.Payment 0 hotFundedInfo
    (by decide) (by decide) (by decide)

/-- C4 counterexample: after guardian 11 trips the emergency shutdown, a
second `emergency_shutdown` call by guardian 12 still succeeds (the
function never consults the emergency flag) and overwrites the stored
initiator. -/
theorem C4_counterexample :
    emergency_shutdown sFunded 11 = Except.ok c4s1 ∧
    c4s1.emergency_initiator = some 11 ∧
    is_emergency_mode c4s1 = true ∧
    emergency_shutdown c4s1 12 = Except.ok c4s2 ∧
    c4s2.emergency_initiator = some 12 := by
  decide

/-- C4 (amended): every successful `emergency_shutdown` stores its caller
as the initiator — so the stored initiator is the most recent successful
caller, not the first — and no operation other than `emergency_shutdown`
ever changes the stored initiator. -/
theorem C4_initiator_last_writer :
    (∀ s g s1, emergency_shutdown s g = Except.ok s1 →
      s1.emergency_initiator = some g ∧ s1.emergency_mode = some true) ∧
    (∀ s op, (∀ g, op ≠ Op.opShutdown g) →
      (applyOp s op).emergency_initiator = s.emergency_initiator) := by
  constructor
  · intro s g s1 h
    obtain ⟨_, gmap, gi, _, _, _, hs1⟩ := shutdown_ok_cases h
    rw [hs1]
    exact ⟨rfl, rfl⟩
  · intro s op hop
    cases op with
    | opInit gs hw cw lim =>
      cases hc : initContract s gs hw cw lim with
      | error e =>
        have hoc : opCall s (Op.opInit gs hw cw lim) = Except.error e := hc
        rw [applyOp_of_error hoc]
      | ok s1 =>
        have hoc : opCall s (Op.opInit gs hw cw lim) = Except.ok s1 := hc
        obtain ⟨_, _, _, hs1⟩ := initContract_ok_cases hc
        rw [applyOp_of_ok hoc, hs1, init_state_initiator]
    | opCreate fw ta amt memo ty now =>
      cases hc : create_transaction s fw ta amt memo ty now with
      | error e =>
        have hoc : opCall s (Op.opCreate fw ta amt memo ty now) = Except.error e := by
          simp only [opCall, hc, Except.map]
        rw [applyOp_of_error hoc]
      | ok r =>
        obtain ⟨tid, s1⟩ := r
        have hoc : opCall s (Op.opCreate fw ta amt memo ty now) = Except.ok s1 := by
          simp only [opCall, hc, Except.map]
        rw [applyOp_of_ok hoc]
        obtain ⟨_, _, _, _, w, limits, _, _, _, hcase⟩ := create_ok_cases hc
        rcases hcase with ⟨_, _, hs1⟩ | ⟨_, hexec⟩
        · rw [hs1, reserve_and_store_initiator]
        · obtain ⟨txn0, fw0, _, _, hs1⟩ := execute_ok_cases hexec
          rw [hs1, execute_result_initiator, reserve_and_store_initiator]
    | opApprove g t now =>
      cases hc : approve_transaction s g t now with
      | error e =>
        have hoc : opCall s (Op.opApprove g t now) = Except.error e := by
          simp only [opCall, hc, Except.map]
        rw [applyOp_of_error hoc]
      | ok r =>
        obtain ⟨b, s1⟩ := r
        have hoc : opCall s (Op.opApprove g t now) = Except.ok s1 := by
          simp only [opCall, hc, Except.map]
        rw [applyOp_of_ok hoc]
        obtain ⟨_, _, gmap, gi, txn, limits, _, _, _, _, _, _, _, _, hcase⟩ :=
          approve_ok_cases hc
        rcases hcase with ⟨_, hs1⟩ | ⟨_, fw0, _, hs1⟩
        · rw [hs1, approve_finish_initiator]
        · rw [hs1, approve_finish_initiator, execute_result_initiator]
    | opShutdown g => exact absurd rfl (hop g)

/-- C4 witness: the amended statement applied to the first shutdown of the
funded test state. -/
theorem C4_initiator_last_writer_witness :
    c4s1.emergency_initiator = some 11 ∧ c4s1.emergency_mode = some true :=
  C4_initiator_last_writer.1 sFunded 11 c4s1 (by decide)

/-- C2: with `required_approvals = 2`, the call recording the 2nd distinct
guardian approval does trigger execution (balance debited, reservation
released, spend recorded) and returns `true` while the 1st returned
`false` — but the transaction's stored status after that call is
`Approved`, not `Executed`, and `executed_at` is `None`:
`approve_transaction` overwrites the `Executed` record stored by
`execute_transaction_internal` with its stale local copy. This theorem
evaluates the code on the failing input. -/
theorem C2_quorum_status_clobbered :
    create_transaction sFunded 1 99 2000 0 TxType.Payment 100 = Except.ok (1, c2s1) ∧
    (get_transaction c2s1 1).map Transaction.status = some TxStatus.AwaitingApproval ∧
    approve_transaction c2s1 11 1 200 = Except.ok (false, c2s2) ∧
    (get_transaction c2s2 1).map Transaction.status = some TxStatus.AwaitingApproval ∧
    approve_transaction c2s2 12 1 300 = Except.ok (true, c2s3) ∧
    (get_transaction c2s3 1).map Transaction.status = some TxStatus.Approved ∧
    (get_transaction c2s3 1).map Transaction.status ≠ some TxStatus.Executed ∧
    Option.bind (get_transaction c2s3 1) Transaction.executed_at = none ∧
    (get_transaction c2s3 1).map Transaction.approvals = some [11, 12] ∧
    get_wallet_balance c2s3 1 = some 8000 ∧
    (storeGet c2s3.wallets 1).map WalletInfo.reserved_balance = some 0 ∧
    (storeGet c2s3.daily_spent 0).getD 0 = 2000 := by
  decide

/-- C3: once `emergency_shutdown` succeeds, every subsequent
`create_transaction` and `approve_transaction` call fails with
`EmergencyActive` regardless of caller, arguments or transaction id; from
any initialized state with the flag set, every operation preserves the
flag (so it stays set in every reachable state — nothing clears it); and
the read-only queries do not depend on the emergency flag at all. -/
theorem C3_emergency_gating :
    (∀ s g s1, emergency_shutdown s g = Except.ok s1 →
      (∀ fw ta amt memo ty now,
        create_transaction s1 fw ta amt memo ty now =
          Except.error CustodyError.EmergencyActive) ∧
      (∀ g2 t now, approve_transaction s1 g2 t now =
        Except.error CustodyError.EmergencyActive)) ∧
    (∀ s, s.inited = true → is_emergency_mode s = true →
      ∀ op, (applyOp s op).inited = true ∧
        is_emergency_mode (applyOp s op) = true) ∧
    (∀ s b t a g2,
      get_transaction { s with emergency_mode := b } t = get_transaction s t ∧
      get_wallet_balance { s with emergency_mode := b } a = get_wallet_balance s a ∧
      get_guardian { s with emergency_mode := b } g2 = get_guardian s g2 ∧
      get_transaction_counter { s with emergency_mode := b } =
        get_transaction_counter s ∧
      get_system_limits { s with emergency_mode := b } = get_system_limits s) := by
  refine ⟨?_, ?_, ?_⟩
  · intro s g s1 h
    obtain ⟨hinit, gmap, gi, _, _, _, hs1⟩ := shutdown_ok_cases h
    have hinit1 : s1.inited = true := by rw [hs1]; exact hinit
    have hem1 : is_emergency_mode s1 = true := by
      rw [hs1]
      rfl
    constructor
    · intro fw ta amt memo ty now
      unfold create_transaction
      rw [hinit1, hem1]
      rfl
    · intro g2 t now
      unfold approve_transaction
      rw [hinit1, hem1]
      rfl
  · intro s hinit hem op
    cases op with
    | opInit gs hw cw lim =>
      have hc : initContract s gs hw cw lim =
          Except.error CustodyError.AlreadyInited := by
        unfold initContract
        rw [hinit]
        rfl
      have hoc : opCall s (Op.opInit gs hw cw lim) =
          Except.error CustodyError.AlreadyInited := hc
      rw [applyOp_of_error hoc]
      exact ⟨hinit, hem⟩
    | opCreate fw ta amt memo ty now =>
      have hc : create_transaction s fw ta amt memo ty now =
          Except.error CustodyError.EmergencyActive := by
        unfold create_transaction
        rw [hinit, hem]
        rfl
      have hoc : opCall s (Op.opCreate fw ta amt memo ty now) =
          Except.error CustodyError.EmergencyActive := by
        simp only [opCall, hc, Except.map]
      rw [applyOp_of_error hoc]
      exact ⟨hinit, hem⟩
    | opApprove g t now =>
      have hc : approve_transaction s g t now =
          Except.error CustodyError.EmergencyActive := by
        unfold approve_transaction
        rw [hinit, hem]
        rfl
      have hoc : opCall s (Op.opApprove g t now) =
          Except.error CustodyError.EmergencyActive := by
        simp only [opCall, hc, Except.map]
      rw [applyOp_of_error hoc]
      exact ⟨hinit, hem⟩
    | opShutdown g =>
      cases hc : emergency_shutdown s g with
      | error e =>
        have hoc : opCall s (Op.opShutdown g) = Except.error e := hc
        rw [applyOp_of_error hoc]
        exact ⟨hinit, hem⟩
      | ok s1 =>
        have hoc : opCall s (Op.opShutdown g) = Except.ok s1 := hc
        obtain ⟨_, gmap, gi, _, _, _, hs1⟩ := shutdown_ok_cases hc
        rw [applyOp_of_ok hoc, hs1]
        exact ⟨hinit, rfl⟩
  · intro s b t a g2
    exact ⟨rfl, rfl, rfl, rfl, rfl⟩

/-- C3 witness: after guardian 11's shutdown of the funded test state,
a concrete create and a concrete approve both fail with
`EmergencyActive`, and the flag survives a further create attempt. -/
theorem C3_emergency_gating_witness :
    create_transaction c4s1 1 99 500 0 TxType.Payment 0 =
      Except.error CustodyError.EmergencyActive ∧
    approve_transaction c4s1 12 1 0 =
      Except.error CustodyError.EmergencyActive ∧
    is_emergency_mode (applyOp c4s1 (Op.opCreate 1 99 500 0 TxType.Payment 0)) =
      true :=
  ⟨(C3_emergency_gating.1 sFunded 11 c4s1 (by decide)).1 1 99 500 0 TxType.Payment 0,
   (C3_emergency_gating.1 sFunded 11 c4s1 (by decide)).2 12 1 0,
   (C3_emergency_gating.2.1 c4s1 (by decide) (by decide)
     (Op.opCreate 1 99 500 0 TxType.Payment 0)).2⟩

/-- C5: a `create_transaction` whose transaction requires approval and
passes the earlier gates fails with `LimitExceeded` exactly when
`daily_spent + amount > daily_limit` or `monthly_spent + amount >
monthly_limit`, where the buckets are `day = timestamp / 86400` and
`month = day / 30`; in particular reaching exactly the daily limit
succeeds and one unit more fails. -/
theorem C5_limit_boundary :
    ∀ s fw ta amt memo ty now w limits,
      s.inited = true → is_emergency_mode s = false → 0 < amt →
      storeGet s.wallets fw = some w → amt ≤ w.balance →
      s.system_limits = some limits →
      requiresApproval limits amt w = true →
      (create_transaction s fw ta amt memo ty now =
          Except.error CustodyError.LimitExceeded ↔
        (limits.daily_limit < (storeGet s.daily_spent (now / 86400)).getD 0 + amt ∨
         limits.monthly_limit <
           (storeGet s.monthly_spent (now / 86400 / 30)).getD 0 + amt)) := by
  intro s fw ta amt memo ty now w limits hinit hem hamt hget hbal hlim hra
  have h1 : ¬ amt ≤ 0 := by omega
  have h2 : ¬ w.balance < amt := by omega
  have hchk := check_spending_limits_spec s amt now limits hlim
  by_cases hd : limits.daily_limit < (storeGet s.daily_spent (now / 86400)).getD 0 + amt
  · simp [create_transaction, hinit, hem, hget, hlim, hra, hchk, h1, h2, hd]
  · by_cases hm : limits.monthly_limit <
        (storeGet s.monthly_spent (now / 86400 / 30)).getD 0 + amt
    · simp [create_transaction, hinit, hem, hget, hlim, hra, hchk, h1, h2, hd, hm]
    · simp [create_transaction, hinit, hem, hget, hlim, hra, hchk, h1, h2, hd, hm]

/-- C5 witness: the boundary statement applied to the funded test state
with a 2000-unit high-value payment (no prior spend, so neither limit is
exceeded and the call does not fail with `LimitExceeded`). -/
theorem C5_limit_boundary_witness :
    create_transaction sFunded 1 99 2000 0 TxType.Payment 100 =
        Except.error CustodyError.LimitExceeded ↔
      (limits0.daily_limit < (storeGet sFunded.daily_spent (100 / 86400)).getD 0 + 2000 ∨
       limits0.monthly_limit <
         (storeGet sFunded.monthly_spent (100 / 86400 / 30)).getD 0 + 2000) :=
  C5_limit_boundary sFunded 1 99 2000 0 TxType.Payment 100 hotFundedInfo limits0
    (by decide) (by decide) (by decide) (by decide) (by decide) (by decide) (by decide)

/-- C6: a successful `create_transaction` stores a transaction whose
`requires_approval` flag equals `amount > high_value_threshold ||
wallet is Cold`; when the flag is set the transaction is stored as
`AwaitingApproval`, not executed (`executed_at = none`, balance
untouched, only the reservation grows); when clear it is executed within
the same call (`Executed`, `executed_at = now`, balance debited). The
spending-limit check runs only on the approval path: a below-threshold
hot-wallet transaction succeeds with no hypothesis on the spend buckets
at all. -/
theorem C6_approval_routing :
    (∀ s fw ta amt memo ty now w limits tid s1,
      storeGet s.wallets fw = some w → s.system_limits = some limits →
      create_transaction s fw ta amt memo ty now = Except.ok (tid, s1) →
      ∃ txn, storeGet s1.transactions tid = some txn ∧
        txn.requires_approval = requiresApproval limits amt w ∧
        requiresApproval limits amt w =
          (decide (amt > limits.high_value_threshold) ||
            decide (w.wallet_type = WalletType.Cold)) ∧
        (txn.requires_approval = true →
          txn.status = TxStatus.AwaitingApproval ∧ txn.executed_at = none ∧
          (storeGet s1.wallets fw).map WalletInfo.balance = some w.balance ∧
          (storeGet s1.wallets fw).map WalletInfo.reserved_balance =
            some (w.reserved_balance + amt)) ∧
        (txn.requires_approval = false →
          txn.status = TxStatus.Executed ∧ txn.executed_at = some now ∧
          (storeGet s1.wallets fw).map WalletInfo.balance = some (w.balance - amt))) ∧
    (∀ s fw ta amt memo ty now w limits,
      s.inited = true → is_emergency_mode s = false → 0 < amt →
      storeGet s.wallets fw = some w → amt ≤ w.balance →
      s.system_limits = some limits →
      requiresApproval limits amt w = false →
      ∃ r, create_transaction s fw ta amt memo ty now = Except.ok r) := by
  constructor
  · intro s fw ta amt memo ty now w limits tid s1 hget hlim hc
    obtain ⟨_, _, hamt, htid, w', limits', hget', hbal, hlim', hcase⟩ :=
      create_ok_cases hc
    have hww : w = w' := by
      rw [hget] at hget'
      exact Option.some.inj hget'
    subst hww
    have hll : limits = limits' := by
      rw [hlim] at hlim'
      exact Option.some.inj hlim'
    subst hll
    rcases hcase with ⟨hra, hchk, hs1⟩ | ⟨hra, hexec⟩
    · refine ⟨new_transaction tid fw ta amt memo ty now true, ?_, ?_, rfl, ?_, ?_⟩
      · rw [hs1, reserve_and_store_transactions, storeGet_storeSet_self]
      · rw [new_transaction_requires, hra]
      · intro _
        refine ⟨by simp, rfl, ?_, ?_⟩
        · rw [hs1, reserve_and_store_wallets, storeGet_storeSet_self]
          rfl
        · rw [hs1, reserve_and_store_wallets, storeGet_storeSet_self]
          rfl
      · intro hcontra
        rw [new_transaction_requires] at hcontra
        simp at hcontra
    · rw [execute_after_reserve] at hexec
      simp only [Except.ok.injEq] at hexec
      refine ⟨{ new_transaction tid fw ta amt memo ty now false with
        status := TxStatus.Executed, executed_at := some now }, ?_, ?_, ?_, ?_, ?_⟩
      · rw [← hexec, execute_result_transactions, reserve_and_store_transactions,
          storeSet_storeSet_same, storeGet_storeSet_self]
      · rw [hra]
        rfl
      · rfl
      · intro hcontra
        simp [new_transaction] at hcontra
      · intro _
        refine ⟨rfl, rfl, ?_⟩
        rw [← hexec, execute_result_wallets, reserve_and_store_wallets,
          new_transaction_from_wallet, new_transaction_amount,
          storeSet_storeSet_same, storeGet_storeSet_self]
        rfl
  · intro s fw ta amt memo ty now w limits hinit hem hamt hget hbal hlim hra
    have h1 : ¬ amt ≤ 0 := by omega
    have h2 : ¬ w.balance < amt := by omega
    refine ⟨(s.transaction_counter.getD 0 + 1,
      execute_result
        (reserve_and_store s fw w amt (s.transaction_counter.getD 0 + 1)
          (new_transaction (s.transaction_counter.getD 0 + 1) fw ta amt memo ty
            now false))
        (s.transaction_counter.getD 0 + 1) now
        (new_transaction (s.transaction_counter.getD 0 + 1) fw ta amt memo ty
          now false)
        { w with reserved_balance := w.reserved_balance + amt }), ?_⟩
    simp [create_transaction, hinit, hem, h1, h2, hget, hlim, hra,
      execute_after_reserve]

theorem contains_append_self (l : List Nat) (g : Nat) :
    (l ++ [g]).contains g = true := by
  induction l with
  | nil => simp
  | cons x xs ih => simp [List.contains_cons, ih]

theorem approve_duplicate (s : ContractState) (g t now : Nat)
    (gmap : List (Nat × Guardian)) (gi : Guardian) (txn : Transaction)
    (hinit : s.inited = true) (hem : is_emergency_mode s = false)
    (hgm : s.guardians = some gmap) (hgi : storeGet gmap g = some gi)
    (hact : gi.is_active = true) (htx : storeGet s.transactions t = some txn)
    (hdup : txn.approvals.contains g = true) :
    approve_transaction s g t now = Except.error CustodyError.DuplicateApproval := by
  have hmem : g ∈ txn.approvals := by simpa using hdup
  simp [approve_transaction, hinit, hem, hgm, hgi, hact, htx, hmem]

/-- C6 witness: a below-threshold hot-wallet payment from the funded test
state succeeds (no assumption on spend buckets). -/
theorem C6_approval_routing_witness :
    ∃ r, create_transaction sFunded 1 99 500 0 TxType.Payment 0 = Except.ok r :=
  C6_approval_routing.2 sFunded 1 99 500 0 TxType.Payment 0 hotFundedInfo limits0
    (by decide) (by decide) (by decide) (by decide) (by decide) (by decide) (by decide)

/-- C7: a guardian whose approval is already recorded on a transaction
gets `DuplicateApproval` on a further `approve_transaction` call — in
particular immediately after any successful approval of the same pair —
and every failing entry-point call commits nothing: the host discards all
writes of a panicking call, so the post-state equals the pre-state. -/
theorem C7_duplicate_and_rollback :
    (∀ s g t now b s1 now2, approve_transaction s g t now = Except.ok (b, s1) →
      approve_transaction s1 g t now2 =
        Except.error CustodyError.DuplicateApproval) ∧
    (∀ s g t now gmap gi txn,
      s.inited = true → is_emergency_mode s = false →
      s.guardians = some gmap → storeGet gmap g = some gi →
      gi.is_active = true → storeGet s.transactions t = some txn →
      txn.approvals.contains g = true →
      approve_transaction s g t now =
        Except.error CustodyError.DuplicateApproval) ∧
    (∀ s op e, opCall s op = Except.error e → applyOp s op = s) := by
  refine ⟨?_, ?_, ?_⟩
  · intro s g t now b s1 now2 h
    obtain ⟨hinit, hem, gmap, gi, txn, limits, hgm, hgi, hact, htx, hdup, hstat,
      hlim, hb, hcase⟩ := approve_ok_cases h
    rcases hcase with ⟨hbf, hs1⟩ | ⟨hbt, fw0, hfw0, hs1⟩
    · refine approve_duplicate s1 g t now2
        (storeSet gmap g
          { gi with approval_count := gi.approval_count + 1, last_approval := now })
        { gi with approval_count := gi.approval_count + 1, last_approval := now }
        (approved_txn txn g false) ?_ ?_ ?_ ?_ ?_ ?_ ?_
      · rw [hs1, approve_finish_inited]; exact hinit
      · rw [hs1]
        show (approve_finish s gmap g _ t _).emergency_mode.getD false = false
        rw [approve_finish_emergency]
        exact hem
      · rw [hs1, approve_finish_guardians]
      · exact storeGet_storeSet_self gmap g _
      · exact hact
      · rw [hs1, approve_finish_transactions]
        exact storeGet_storeSet_self _ t _
      · rw [approved_txn_approvals]
        exact contains_append_self _ g
    · refine approve_duplicate s1 g t now2
        (storeSet gmap g
          { gi with approval_count := gi.approval_count + 1, last_approval := now })
        { gi with approval_count := gi.approval_count + 1, last_approval := now }
        (approved_txn txn g true) ?_ ?_ ?_ ?_ ?_ ?_ ?_
      · rw [hs1, approve_finish_inited, execute_result_inited]; exact hinit
      · rw [hs1]
        show (approve_finish _ gmap g _ t _).emergency_mode.getD false = false
        rw [approve_finish_emergency, execute_result_emergency]
        exact hem
      · rw [hs1, approve_finish_guardians]
      · exact storeGet_storeSet_self gmap g _
      · exact hact
      · rw [hs1, approve_finish_transactions]
        exact storeGet_storeSet_self _ t _
      · rw [approved_txn_approvals]
        exact contains_append_self _ g
  · intro s g t now gmap gi txn hinit hem hgm hgi hact htx hdup
    exact approve_duplicate s g t now gmap gi txn hinit hem hgm hgi hact htx hdup
  · intro s op e h
    exact applyOp_of_error h

/-- C7 witness: guardian 11, already recorded on transaction 1 after the
first approval in the C2 trace, gets `DuplicateApproval` on a second
call. -/
theorem C7_duplicate_and_rollback_witness :
    approve_transaction c2s2 11 1 999 =
      Except.error CustodyError.DuplicateApproval :=
  C7_duplicate_and_rollback.1 c2s1 11 1 200 false c2s2 999 (by decide)

/-- C8 counterexample: an initialization input whose three guardians
include two sharing address 11, with hot and cold wallet both at address
5, passes every check; afterwards the guardian map holds only 2 entries
(`GuardianCount` is nevertheless stored as 3) and a single wallet record
exists, typed Cold. -/
theorem C8_counterexample :
    initContract emptyState [gA, gAdup, gC] 5 5 limits0 = Except.ok c8s ∧
    c8s.guardian_count = some 3 ∧
    c8s.guardians = some [(11, gAdup), (13, gC)] ∧
    c8s.wallets.length = 1 ∧
    storeGet c8s.wallets 5 = some (fresh_wallet 5 WalletType.Cold) := by
  decide

/-- C8 (amended): a second `initialize` always fails with
`AlreadyInitialized`; a guardian count other than 3, or percentages not
summing to 100, fail with `InvalidConfiguration`; and after a successful
`initialize` from a fresh deployment whose three guardian addresses are
pairwise distinct and whose hot and cold wallet addresses differ, exactly
3 guardians are registered and retrievable, exactly 2 wallets exist (one
Hot at the hot address, one Cold at the cold address, each with balance
0, reserved 0, active), the counter reads 0 and emergency mode is off.
(With duplicated addresses the call still succeeds but stores fewer
records — see the counterexample and C10.) -/
theorem C8_initialization :
    (∀ s gs hw cw lim s1 gs2 hw2 cw2 lim2,
      initContract s gs hw cw lim = Except.ok s1 →
      initContract s1 gs2 hw2 cw2 lim2 =
        Except.error CustodyError.AlreadyInited) ∧
    (∀ s gs hw cw lim, s.inited = false → gs.length ≠ 3 →
      initContract s gs hw cw lim =
        Except.error CustodyError.InvalidConfiguration) ∧
    (∀ s gs hw cw lim, s.inited = false → gs.length = 3 →
      lim.cold_wallet_percentage + lim.hot_wallet_percentage ≠ 100 →
      initContract s gs hw cw lim =
        Except.error CustodyError.InvalidConfiguration) ∧
    (∀ g1 g2 g3 hw cw lim s1,
      initContract emptyState [g1, g2, g3] hw cw lim = Except.ok s1 →
      g1.address ≠ g2.address → g1.address ≠ g3.address →
      g2.address ≠ g3.address → hw ≠ cw →
      s1.guardians.map List.length = some 3 ∧
      get_guardian s1 g1.address = some g1 ∧
      get_guardian s1 g2.address = some g2 ∧
      get_guardian s1 g3.address = some g3 ∧
      s1.wallets.length = 2 ∧
      storeGet s1.wallets hw = some (fresh_wallet hw WalletType.Hot) ∧
      storeGet s1.wallets cw = some (fresh_wallet cw WalletType.Cold) ∧
      s1.guardian_count = some 3 ∧
      get_transaction_counter s1 = 0 ∧
      is_emergency_mode s1 = false) := by
  refine ⟨?_, ?_, ?_, ?_⟩
  · intro s gs hw cw lim s1 gs2 hw2 cw2 lim2 h
    obtain ⟨_, _, _, hs1⟩ := initContract_ok_cases h
    have hinit1 : s1.inited = true := by rw [hs1]; rfl
    unfold initContract
    rw [hinit1]
    rfl
  · intro s gs hw cw lim hinit hlen
    simp [initContract, hinit, hlen]
  · intro s gs hw cw lim hinit hlen hpct
    simp [initContract, hinit, hlen, hpct]
  · intro g1 g2 g3 hw cw lim s1 h h12 h13 h23 hwc
    obtain ⟨_, _, _, hs1⟩ := initContract_ok_cases h
    have hgmap : [g1, g2, g3].foldl (fun m g => storeSet m g.address g) [] =
        [(g1.address, g1), (g2.address, g2), (g3.address, g3)] := by
      simp [storeSet, h12, h13, h23]
    have hwal : storeSet (storeSet emptyState.wallets hw
          (fresh_wallet hw WalletType.Hot)) cw (fresh_wallet cw WalletType.Cold) =
        [(hw, fresh_wallet hw WalletType.Hot), (cw, fresh_wallet cw WalletType.Cold)] := by
      simp [emptyState, storeSet, hwc]
    subst hs1
    refine ⟨?_, ?_, ?_, ?_, ?_, ?_, ?_, rfl, rfl, rfl⟩
    · rw [init_state_guardians, hgmap]
      rfl
    · simp [get_guardian, init_state_guardians, hgmap, storeGet]
    · simp [get_guardian, init_state_guardians, hgmap, storeGet, h12]
    · simp [get_guardian, init_state_guardians, hgmap, storeGet, h13, h23]
    · rw [init_state_wallets, hwal]
      rfl
    · rw [init_state_wallets, hwal]
      simp [storeGet]
    · rw [init_state_wallets, hwal]
      simp [storeGet, hwc]

theorem storeGet_foldl_guardians (gs : List Guardian)
    (m0 : List (Nat × Guardian)) (k : Nat) :
    storeGet (gs.foldl (fun m g => storeSet m g.address g) m0) k =
      (lastLookup gs k).or (storeGet m0 k) := by
  induction gs generalizing m0 with
  | nil => simp [lastLookup]
  | cons g rest ih =>
    rw [List.foldl_cons, ih, storeGet_storeSet]
    have hrev : lastLookup (g :: rest) k =
        (lastLookup rest k).or ([g].find? (fun x => x.address == k)) := by
      unfold lastLookup
      rw [List.reverse_cons, List.find?_append]
    rw [hrev]
    cases hl : lastLookup rest k with
    | some v => rfl
    | none =>
      by_cases hk : k = g.address
      · have hb : (g.address == k) = true := by simp [beq_iff_eq, hk]
        simp [List.find?, hb, hk, Option.or]
      · have hb : (g.address == k) = false := by
          simp only [beq_eq_false_iff_ne, ne_eq]
          exact fun hh => hk hh.symm
        simp [List.find?, hb, hk, Option.or]

/-- C10: a 3-element guardian vector containing a duplicated address
passes the length check, so `initialize` succeeds; the stored guardian
map then has fewer than 3 entries while `GuardianCount` is still stored
as 3, and every lookup returns the last vector entry carrying that
address. -/
theorem C10_duplicate_guardians :
    ∀ s g1 g2 g3 hw cw lim,
      s.inited = false →
      lim.cold_wallet_percentage + lim.hot_wallet_percentage = 100 →
      (g1.address = g2.address ∨ g1.address = g3.address ∨
        g2.address = g3.address) →
      ∃ s1 gmap, initContract s [g1, g2, g3] hw cw lim = Except.ok s1 ∧
        s1.guardians = some gmap ∧ gmap.length < 3 ∧
        s1.guardian_count = some 3 ∧
        ∀ k, storeGet gmap k = lastLookup [g1, g2, g3] k := by
  intro s g1 g2 g3 hw cw lim hinit hpct hdup
  have hok : initContract s [g1, g2, g3] hw cw lim =
      Except.ok (init_state s [g1, g2, g3] hw cw lim) := by
    simp [initContract, hinit, hpct]
  refine ⟨init_state s [g1, g2, g3] hw cw lim,
    [g1, g2, g3].foldl (fun m g => storeSet m g.address g) [], hok,
    init_state_guardians s [g1, g2, g3] hw cw lim, ?_, rfl, ?_⟩
  · have hfold : [g1, g2, g3].foldl (fun m g => storeSet m g.address g) [] =
        storeSet (storeSet [(g1.address, g1)] g2.address g2) g3.address g3 := rfl
    rw [hfold]
    rcases hdup with h | h | h
    · have hm2 : storeSet [(g1.address, g1)] g2.address g2 = [(g1.address, g2)] := by
        simp [storeSet, h]
      rw [hm2]
      have := storeSet_length_le [(g1.address, g2)] g3.address g3
      simp only [List.length_cons, List.length_nil] at this
      omega
    · have hsome : (storeGet (storeSet [(g1.address, g1)] g2.address g2)
          g3.address).isSome := by
        rw [← h, storeGet_storeSet]
        by_cases h' : g1.address = g2.address
        · simp [h']
        · simp [h', storeGet]
      rw [storeSet_length_of_get _ hsome]
      have := storeSet_length_le [(g1.address, g1)] g2.address g2
      simp only [List.length_cons, List.length_nil] at this
      omega
    · have hsome : (storeGet (storeSet [(g1.address, g1)] g2.address g2)
          g3.address).isSome := by
        rw [← h, storeGet_storeSet]
        simp
      rw [storeSet_length_of_get _ hsome]
      have := storeSet_length_le [(g1.address, g1)] g2.address g2
      simp only [List.length_cons, List.length_nil] at this
      omega
  · intro k
    rw [storeGet_foldl_guardians]
    cases hl : lastLookup [g1, g2, g3] k with
    | some v => rfl
    | none => rfl

/-- C10 witness: the duplicate-address initialization input of the C8
counterexample — the map keeps 2 entries, and lookup of address 11
returns the later duplicate. -/
theorem C10_duplicate_guardians_witness :
    ∃ s1 gmap, initContract emptyState [gA, gAdup, gC] 5 5 limits0 =
        Except.ok s1 ∧
      s1.guardians = some gmap ∧ gmap.length < 3 ∧
      s1.guardian_count = some 3 ∧
      ∀ k, storeGet gmap k = lastLookup [gA, gAdup, gC] k :=
  C10_duplicate_guardians emptyState gA gAdup gC 5 5 limits0
    (by decide) (by decide) (by decide)

/-- C9: no operation ever increases any wallet's balance — from any state
whose stored transactions all carry positive amounts (as
`create_transaction` guarantees), every entry point either leaves a
wallet's balance unchanged, strictly decreases it (execution debits the
source wallet), or creates it fresh at 0 (`initialize`); the destination
address is never credited, and the positive-amounts property itself is
preserved. -/
theorem C9_no_balance_increase :
    ∀ s, TxAmountsPos s → ∀ op,
      TxAmountsPos (applyOp s op) ∧
      (∀ a w1, storeGet (applyOp s op).wallets a = some w1 →
        w1.balance = 0 ∨
        ∃ w0, storeGet s.wallets a = some w0 ∧ w1.balance ≤ w0.balance) := by
  intro s hpos op
  cases op with
  | opInit gs hw cw lim =>
    cases hc : initContract s gs hw cw lim with
    | error e =>
      have hoc : opCall s (Op.opInit gs hw cw lim) = Except.error e := hc
      rw [applyOp_of_error hoc]
      exact ⟨hpos, fun a w1 h => Or.inr ⟨w1, h, le_rfl⟩⟩
    | ok s1 =>
      have hoc : opCall s (Op.opInit gs hw cw lim) = Except.ok s1 := hc
      obtain ⟨_, _, _, hs1⟩ := initContract_ok_cases hc
      rw [applyOp_of_ok hoc, hs1]
      constructor
      · intro p hp
        rw [init_state_transactions] at hp
        exact hpos p hp
      · intro a w1 h
        rw [init_state_wallets, storeGet_storeSet] at h
        by_cases hcw : a = cw
        · rw [if_pos hcw] at h
          left
          rw [← Option.some.inj h]
          rfl
        · rw [if_neg hcw, storeGet_storeSet] at h
          by_cases hhw : a = hw
          · rw [if_pos hhw] at h
            left
            rw [← Option.some.inj h]
            rfl
          · rw [if_neg hhw] at h
            exact Or.inr ⟨w1, h, le_rfl⟩
  | opCreate fw ta amt memo ty now =>
    cases hc : create_transaction s fw ta amt memo ty now with
    | error e =>
      have hoc : opCall s (Op.opCreate fw ta amt memo ty now) = Except.error e := by
        simp only [opCall, hc, Except.map]
      rw [applyOp_of_error hoc]
      exact ⟨hpos, fun a w1 h => Or.inr ⟨w1, h, le_rfl⟩⟩
    | ok r =>
      obtain ⟨tid, s1⟩ := r
      have hoc : opCall s (Op.opCreate fw ta amt memo ty now) = Except.ok s1 := by
        simp only [opCall, hc, Except.map]
      rw [applyOp_of_ok hoc]
      obtain ⟨_, _, hamt, htid, w, limits, hget, hbal, hlim, hcase⟩ :=
        create_ok_cases hc
      rcases hcase with ⟨hra, hchk, hs1⟩ | ⟨hra, hexec⟩
      · subst hs1
        constructor
        · intro p hp
          rw [reserve_and_store_transactions] at hp
          rcases mem_storeSet hp with h1 | h1
          · rw [h1]
            exact hamt
          · exact hpos p h1
        · intro a w1 h
          rw [reserve_and_store_wallets, storeGet_storeSet] at h
          by_cases hfw : a = fw
          · rw [if_pos hfw] at h
            refine Or.inr ⟨w, by rw [hfw]; exact hget, ?_⟩
            rw [← Option.some.inj h]
          · rw [if_neg hfw] at h
            exact Or.inr ⟨w1, h, le_rfl⟩
      · rw [execute_after_reserve] at hexec
        simp only [Except.ok.injEq] at hexec
        subst hexec
        constructor
        · intro p hp
          rw [execute_result_transactions, reserve_and_store_transactions,
            storeSet_storeSet_same] at hp
          rcases mem_storeSet hp with h1 | h1
          · rw [h1]
            exact hamt
          · exact hpos p h1
        · intro a w1 h
          rw [execute_result_wallets, reserve_and_store_wallets,
            new_transaction_from_wallet, new_transaction_amount,
            storeSet_storeSet_same, storeGet_storeSet] at h
          by_cases hfw : a = fw
          · rw [if_pos hfw] at h
            refine Or.inr ⟨w, by rw [hfw]; exact hget, ?_⟩
            rw [← Option.some.inj h]
            dsimp only
            omega
          · rw [if_neg hfw] at h
            exact Or.inr ⟨w1, h, le_rfl⟩
  | opApprove g t now =>
    cases hc : approve_transaction s g t now with
    | error e =>
      have hoc : opCall s (Op.opApprove g t now) = Except.error e := by
        simp only [opCall, hc, Except.map]
      rw [applyOp_of_error hoc]
      exact ⟨hpos, fun a w1 h => Or.inr ⟨w1, h, le_rfl⟩⟩
    | ok r =>
      obtain ⟨b, s1⟩ := r
      have hoc : opCall s (Op.opApprove g t now) = Except.ok s1 := by
        simp only [opCall, hc, Except.map]
      rw [applyOp_of_ok hoc]
      obtain ⟨_, _, gmap, gi, txn, limits, hgm, hgi, hact, htx, hdup, hstat,
        hlim, hb, hcase⟩ := approve_ok_cases hc
      have htxpos : 0 < txn.amount := hpos _ (storeGet_mem htx)
      rcases hcase with ⟨hbf, hs1⟩ | ⟨hbt, fw0, hfw0, hs1⟩
      · subst hs1
        constructor
        · intro p hp
          rw [approve_finish_transactions] at hp
          rcases mem_storeSet hp with h1 | h1
          · rw [h1]
            exact htxpos
          · exact hpos p h1
        · intro a w1 h
          rw [approve_finish_wallets] at h
          exact Or.inr ⟨w1, h, le_rfl⟩
      · subst hs1
        constructor
        · intro p hp
          rw [approve_finish_transactions, execute_result_transactions,
            storeSet_storeSet_same] at hp
          rcases mem_storeSet hp with h1 | h1
          · rw [h1]
            exact htxpos
          · exact hpos p h1
        · intro a w1 h
          rw [approve_finish_wallets, execute_result_wallets,
            storeGet_storeSet] at h
          by_cases hfw : a = txn.from_wallet
          · rw [if_pos hfw] at h
            refine Or.inr ⟨fw0, by rw [hfw]; exact hfw0, ?_⟩
            rw [← Option.some.inj h]
            dsimp only
            omega
          · rw [if_neg hfw] at h
            exact Or.inr ⟨w1, h, le_rfl⟩
  | opShutdown g =>
    cases hc : emergency_shutdown s g with
    | error e =>
      have hoc : opCall s (Op.opShutdown g) = Except.error e := hc
      rw [applyOp_of_error hoc]
      exact ⟨hpos, fun a w1 h => Or.inr ⟨w1, h, le_rfl⟩⟩
    | ok s1 =>
      have hoc : opCall s (Op.opShutdown g) = Except.ok s1 := hc
      obtain ⟨_, gmap, gi, _, _, _, hs1⟩ := shutdown_ok_cases hc
      rw [applyOp_of_ok hoc, hs1]
      exact ⟨hpos, fun a w1 h => Or.inr ⟨w1, h, le_rfl⟩⟩

/-- C9 witness: the positive-amount invariant and the non-increase bound
applied to a concrete immediate-execution payment on the funded state
(hot balance 10000 decreases to 9500). -/
theorem C9_no_balance_increase_witness :
    TxAmountsPos (applyOp sFunded (Op.opCreate 1 99 500 0 TxType.Payment 0)) ∧
    (({ address := 1, wallet_type := WalletType.Hot, balance := 9500,
        reserved_balance := 0, is_active := true } : WalletInfo).balance = 0 ∨
      ∃ w0, storeGet sFunded.wallets 1 = some w0 ∧
        ({ address := 1, wallet_type := WalletType.Hot, balance := 9500,
           reserved_balance := 0, is_active := true } : WalletInfo).balance ≤
          w0.balance) :=
  ⟨(C9_no_balance_increase sFunded (by decide)
      (Op.opCreate 1 99 500 0 TxType.Payment 0)).1,
   (C9_no_balance_increase sFunded (by decide)
      (Op.opCreate 1 99 500 0 TxType.Payment 0)).2 1 _ (by decide)⟩

/-- C8 witness: the success clause applied to the (distinct-address) test
initialization. -/
theorem C8_initialization_witness :
    sInit.guardians.map List.length = some 3 ∧
    get_guardian sInit gA.address = some gA :=
  have happ := C8_initialization.2.2.2 gA gB gC 1 2 limits0 sInit
    (by decide) (by decide) (by decide) (by decide) (by decide)
  ⟨happ.1, happ.2.1⟩

end Custody
